import Mathlib

/-!
Shallow embedding of the KBFS block prefetcher (libkbfs/prefetcher.go, the
second document of src/unnamed/part_000) together with the pieces of its
environment that the prefetcher consumes.  Pure logic (priority calculation,
per-block-type fan-out construction, admission checks) is translated into
executable Lean functions; the concurrent run loop / shutdown protocol is
translated into an explicit labelled transition system on an engine state.

Conventions:
* Go channels that are only ever closed (shutdownCh, doneCh) are modelled as
  Booleans recording whether the close has happened; the identity of the
  returned done channel is modelled by a numeric channel id.
* `sync.WaitGroup` traffic is modelled by explicit counters: each function
  reports how many `Add`/`Done` calls it performs.
* Helpers that live elsewhere in the repository (`checkDataVersion`,
  `dirEntryMapToDirEntries`, `dirEntriesBySizeAsc`, the constant
  `defaultOnDemandRequestPriority`, `NewEmpty`) are modelled from the spec and
  marked as such in their doc comments.
-/

/-- BlockPointer: opaque identity of a block — an ID plus a data version
(spec section 3; the locator metadata is irrelevant to every claim). -/
structure BlockPointer where
  id : Nat
  dataVer : Nat
deriving DecidableEq

/-- TlfID: identity of a top-level folder, carried by KeyMetadata. -/
structure TlfID where
  id : Nat
deriving DecidableEq

/-- KeyMetadata: opaque handle for the enclosing folder; only `TlfID()` is
consumed by the prefetcher (source line 233 etc.). -/
structure KeyMetadata where
  tlfID : TlfID
deriving DecidableEq

/-- EntryType of a directory entry.  `Dir`, `File` and `Exec` are the cases
handled by the switch at source lines 272-283; `Sym` stands for every type
that falls into the `default` branch there. -/
inductive EntryType where
  | Dir
  | File
  | Exec
  | Sym
deriving DecidableEq

/-- DirEntry: child descriptor of a directory block — block pointer, entry
type, size in bytes and entry name (spec section 3). -/
structure DirEntry where
  ptr : BlockPointer
  type : EntryType
  size : Nat
  entryName : String
deriving DecidableEq

/-- IndirectFilePtr: child slot of an indirect file block — a block pointer
plus a byte offset. -/
structure IndirectFilePtr where
  ptr : BlockPointer
  off : Int
deriving DecidableEq

/-- IndirectDirPtr: child slot of an indirect dir block — a block pointer
plus a starting-name key. -/
structure IndirectDirPtr where
  ptr : BlockPointer
  off : String
deriving DecidableEq

/-- FileBlock: `IsInd` flag plus the list of indirect pointers (the direct
contents bytes play no role in any claim and are omitted). -/
structure FileBlock where
  isInd : Bool
  iPtrs : List IndirectFilePtr
deriving DecidableEq

/-- DirBlock: `IsInd` flag, indirect pointers, and the children map.  The Go
map is modelled as an association list from child name to entry; the list
order stands for Go's (unspecified) map iteration order. -/
structure DirBlock where
  isInd : Bool
  iPtrs : List IndirectDirPtr
  children : List (String × DirEntry)
deriving DecidableEq

/-- Block: the polymorphic payload, with the three variants the type switch
at source lines 311-327 distinguishes (`common` covers every unknown
variant, e.g. CommonBlock). -/
inductive Block where
  | file (b : FileBlock)
  | dir (b : DirBlock)
  | common
deriving DecidableEq

/-- NewEmpty for file blocks.  Modelled from the spec: "empty file block of
matching variant" (spec 4.E); `(*FileBlock).NewEmpty` lives outside src. -/
def FileBlock.NewEmpty : Block := Block.file ⟨false, []⟩

/-- NewEmpty for dir blocks.  Modelled from the spec: symmetric to the file
case (spec 4.E); `(*DirBlock).NewEmpty` lives outside src. -/
def DirBlock.NewEmpty : Block := Block.dir ⟨false, [], []⟩

/-- prefetcherConfig: the capabilities the prefetcher consumes (source lines
104-109), collapsed to the three queries the claims need.
`cacheHasBlock ptr` is true exactly when `BlockCache().Get(ptr)` returns a
nil error (source line 200).  `dataVersionSupported` is modelled from the
spec: "A data-version check rejects pointers with unsupported versions"
(`checkDataVersion`, called at source line 203, lives outside src); it is
true exactly when that check returns nil.  `isSyncedTlf` is
`IsSyncedTlf` (source line 219). -/
structure prefetcherConfig where
  cacheHasBlock : BlockPointer → Bool
  dataVersionSupported : BlockPointer → Bool
  isSyncedTlf : TlfID → Bool

/-- Priority constant for indirect file (and dir) block children, source
line 97. -/
def fileIndirectBlockPrefetchPriority : Int := -100

/-- Priority constant for directory entry children, source line 98. -/
def dirEntryPrefetchPriority : Int := -200

/-- Priority constant for pointer updates, source line 99. -/
def updatePointerPrefetchPriority : Int := 0

/-- Default prefetch priority, source line 100. -/
def defaultPrefetchPriority : Int := -1024

/-- Modelled from the spec: the on-demand request priority constant referred
to at source line 220 is defined outside src (in the block retrieval queue).
The spec references it only by name ("onDemandRequestPriority"), so its
numeric value is irrelevant to every claim; it is fixed here so that the
model stays executable. -/
def defaultOnDemandRequestPriority : Int := 100

/-- prefetchRequest: the value sent over progressCh (source lines 111-117).
The wait-group pointer is not part of the value here; wait-group traffic is
tracked by explicit counters in the effect records below. -/
structure prefetchRequest where
  priority : Int
  kmd : KeyMetadata
  ptr : BlockPointer
  block : Block
deriving DecidableEq

/-- RequestResult: the possible outcomes of the admission function
`request` (source lines 197-213).  `ok` is a nil error, `dataVersionErr` the
error returned by the data-version check, `shutdownErr` the wrapped io.EOF
"prefetcher is shutdown" error, and `blocked` the case in which the select
at lines 206-212 can complete neither case (no run loop receives and the
shutdown channel is open), so the call never returns. -/
inductive RequestResult where
  | ok
  | dataVersionErr (ptr : BlockPointer)
  | shutdownErr (ptr : BlockPointer)
  | blocked
deriving DecidableEq

/-- RequestEffect: what one call to `request` does — its return value, the
prefetchRequest it managed to hand to the run loop (if any), and the number
of `wg.Done()` calls the body of `request` itself performs on the parent's
wait-group. -/
structure RequestEffect where
  result : RequestResult
  enqueued : Option prefetchRequest
  wgDones : Nat
deriving DecidableEq

/-- blockPrefetcher: the channel-level state of the engine.  `shutdownClosed`
and `doneClosed` record whether shutdownCh / doneCh have been closed;
`runStarted` records whether the `go p.run()` at source line 155 happened;
`doneChId` is the identity of the doneCh allocated at construction (source
line 142), returned by `Shutdown`. -/
structure blockPrefetcher where
  shutdownClosed : Bool
  doneClosed : Bool
  runStarted : Bool
  doneChId : Nat
deriving DecidableEq

/-- Shutdown (source lines 338-345): idempotently close shutdownCh and
return doneCh.  The pair is (state after the call, identity of the returned
channel). -/
def blockPrefetcher.Shutdown (p : blockPrefetcher) : blockPrefetcher × Nat :=
  (if p.shutdownClosed then p else { p with shutdownClosed := true }, p.doneChId)

/-- newBlockPrefetcher (source lines 135-158): allocate the channels; with a
retriever, start the run loop; with a nil retriever, call Shutdown and close
doneCh immediately, and never start the run loop. -/
def newBlockPrefetcher (retrieverPresent : Bool) : blockPrefetcher :=
  let p : blockPrefetcher :=
    { shutdownClosed := false, doneClosed := false, runStarted := false
      doneChId := 0 }
  if retrieverPresent then
    { p with runStarted := true }
  else
    { (p.Shutdown).1 with doneClosed := true }

/-- request (source lines 197-213).  The branches, in source order: return
nil on a cache hit (lines 200-202); return the data-version error (lines
203-205); then the select (lines 206-212) between sending on progressCh and
observing the closed shutdownCh.  A send on the unbuffered progressCh can
complete only when the run loop's goroutine is receiving; the Boolean
`runReceiving` is that scheduling fact (when both select cases are ready Go
chooses arbitrarily; the oracle value picks the branch taken).  The body
performs no `wg.Done()` on any path, hence `wgDones := 0` throughout. -/
def blockPrefetcher.request (cfg : prefetcherConfig)
    (shutdownClosed runReceiving : Bool) (priority : Int) (kmd : KeyMetadata)
    (ptr : BlockPointer) (block : Block) (_entryName : String) :
    RequestEffect :=
  if cfg.cacheHasBlock ptr then
    { result := .ok, enqueued := none, wgDones := 0 }
  else if cfg.dataVersionSupported ptr = false then
    { result := .dataVersionErr ptr, enqueued := none, wgDones := 0 }
  else if runReceiving then
    { result := .ok, enqueued := some ⟨priority, kmd, ptr, block⟩
      wgDones := 0 }
  else if shutdownClosed then
    { result := .shutdownErr ptr, enqueued := none, wgDones := 0 }
  else
    { result := .blocked, enqueued := none, wgDones := 0 }

/-- requestStep: `request` as seen from an engine state.  The rendezvous on
progressCh additionally requires that the run-loop goroutine was ever
started (line 155); `recv` is the remaining scheduling oracle. -/
def blockPrefetcher.requestStep (cfg : prefetcherConfig)
    (p : blockPrefetcher) (recv : Bool) (priority : Int) (kmd : KeyMetadata)
    (ptr : BlockPointer) (block : Block) (entryName : String) :
    RequestEffect :=
  blockPrefetcher.request cfg p.shutdownClosed (p.runStarted && recv)
    priority kmd ptr block entryName

/-- PrefetchBlock (source lines 292-302): allocate a fresh single-use
wait-group, add one to it, and pass through to `request` with an empty
entry name. -/
def blockPrefetcher.PrefetchBlock (cfg : prefetcherConfig)
    (p : blockPrefetcher) (recv : Bool) (block : Block) (ptr : BlockPointer)
    (kmd : KeyMetadata) (priority : Int) : RequestEffect :=
  blockPrefetcher.requestStep cfg p recv priority kmd ptr block ""

/-- calculatePriority (source lines 217-223): a synced TLF elevates every
base priority to defaultOnDemandRequestPriority - 1; otherwise the base
priority is returned unchanged. -/
def blockPrefetcher.calculatePriority (cfg : prefetcherConfig)
    (basePriority : Int) (tlfID : TlfID) : Int :=
  if cfg.isSyncedTlf tlfID then defaultOnDemandRequestPriority - 1
  else basePriority

/-- RequestCall: the argument tuple of one invocation of `p.request` made by
a policy function (priority, target pointer, empty block, entry name). -/
structure RequestCall where
  priority : Int
  ptr : BlockPointer
  block : Block
  entryName : String
deriving DecidableEq

/-- FanOut: what one policy function does with the parent's wait-group and
the admission function: the initial `wg.Add` count, the ordered list of
`p.request` invocations, and the number of `wg.Done()` calls the policy body
itself performs (only the unknown-entry-type branch at source line 282). -/
structure FanOut where
  wgAdd : Nat
  calls : List RequestCall
  wgDones : Nat
deriving DecidableEq

/-- Loop body of prefetchIndirectFileBlock (source lines 234-237): the i-th
pointer is requested at priority startingPriority - i with an empty file
block (`b.NewEmpty()`) and an empty entry name.  The decreasing accumulator
is the loop index folded into the priority. -/
def indirectFileCalls (startingPriority : Int) :
    List IndirectFilePtr → List RequestCall
  | [] => []
  | q :: qs =>
    ⟨startingPriority, q.ptr, FileBlock.NewEmpty, ""⟩ ::
      indirectFileCalls (startingPriority - 1) qs

/-- Loop body of prefetchIndirectDirBlock (source lines 250-253), identical
except that `b.NewEmpty()` is an empty dir block. -/
def indirectDirCalls (startingPriority : Int) :
    List IndirectDirPtr → List RequestCall
  | [] => []
  | q :: qs =>
    ⟨startingPriority, q.ptr, DirBlock.NewEmpty, ""⟩ ::
      indirectDirCalls (startingPriority - 1) qs

/-- prefetchIndirectFileBlock (source lines 225-239): wg.Add(len(IPtrs)),
startingPriority from calculatePriority on the indirect-file constant, then
one request per pointer at decreasing priorities. -/
def blockPrefetcher.prefetchIndirectFileBlock (cfg : prefetcherConfig)
    (b : FileBlock) (kmd : KeyMetadata) : FanOut :=
  { wgAdd := b.iPtrs.length
    calls :=
      indirectFileCalls
        (blockPrefetcher.calculatePriority cfg
          fileIndirectBlockPrefetchPriority kmd.tlfID) b.iPtrs
    wgDones := 0 }

/-- prefetchIndirectDirBlock (source lines 241-255): same shape as the file
case, with the same base priority constant. -/
def blockPrefetcher.prefetchIndirectDirBlock (cfg : prefetcherConfig)
    (b : DirBlock) (kmd : KeyMetadata) : FanOut :=
  { wgAdd := b.iPtrs.length
    calls :=
      indirectDirCalls
        (blockPrefetcher.calculatePriority cfg
          fileIndirectBlockPrefetchPriority kmd.tlfID) b.iPtrs
    wgDones := 0 }

/-- Ordering used to sort directory entries: ascending by size. -/
def sizeLE (a b : DirEntry) : Prop := a.size ≤ b.size

instance : DecidableRel sizeLE := fun a b => Nat.decLe a.size b.size

instance : IsTotal DirEntry sizeLE := ⟨fun a b => Nat.le_total a.size b.size⟩

instance : IsTrans DirEntry sizeLE := ⟨fun _ _ _ => Nat.le_trans⟩

/-- Modelled from the spec: `dirEntryMapToDirEntries` (called at source line
262, defined outside src) builds the list of children from the directory
map, attaching each child's name to its entry ("build a list of children
from the directory map", spec 4.E; the name is consumed at source
line 285). -/
def dirEntryMapToDirEntries (children : List (String × DirEntry)) :
    List DirEntry :=
  children.map fun c => { c.2 with entryName := c.1 }

/-- Modelled from the spec: the `dirEntriesBySizeAsc` ordering wrapper
(source lines 262-263, comparator defined outside src) sorts the entries
ascending by size ("sort ascending by size", spec 4.E). -/
def dirEntriesBySizeAscSort (l : List DirEntry) : List DirEntry :=
  List.insertionSort sizeLE l

/-- Empty target block allocated for a directory entry by the switch at
source lines 272-283: Dir gets `&DirBlock{}`, File and Exec get
`&FileBlock{}`.  The Sym case never reaches an allocation (the default
branch skips the entry); its value here is arbitrary. -/
def emptyTargetFor : EntryType → Block
  | .Dir => Block.dir ⟨false, [], []⟩
  | .File => Block.file ⟨false, []⟩
  | .Exec => Block.file ⟨false, []⟩
  | .Sym => Block.common

/-- Loop of prefetchDirectDirBlock (source lines 268-287): walk the sorted
entries with index i, requesting prefetchable entries at priority
startingPriority - i with the matching empty block, and calling `wg.Done()`
for entries of unknown type.  Returns the request calls and the number of
`wg.Done()` calls. -/
def dirEntryLoop (startingPriority : Int) (i : Nat) :
    List DirEntry → List RequestCall × Nat
  | [] => ([], 0)
  | entry :: rest =>
    let tail := dirEntryLoop startingPriority (i + 1) rest
    match entry.type with
    | .Dir =>
      (⟨startingPriority - (i : Int), entry.ptr,
          emptyTargetFor EntryType.Dir, entry.entryName⟩ :: tail.1, tail.2)
    | .File =>
      (⟨startingPriority - (i : Int), entry.ptr,
          emptyTargetFor EntryType.File, entry.entryName⟩ :: tail.1, tail.2)
    | .Exec =>
      (⟨startingPriority - (i : Int), entry.ptr,
          emptyTargetFor EntryType.Exec, entry.entryName⟩ :: tail.1, tail.2)
    | .Sym => (tail.1, tail.2 + 1)

/-- prefetchDirectDirBlock (source lines 257-289): convert the children map
to a list, sort ascending by size, wg.Add(number of entries), compute the
starting priority from the dir-entry constant, then run the indexed loop. -/
def blockPrefetcher.prefetchDirectDirBlock (cfg : prefetcherConfig)
    (b : DirBlock) (kmd : KeyMetadata) : FanOut :=
  let dirEntries := dirEntriesBySizeAscSort (dirEntryMapToDirEntries b.children)
  let startingPriority :=
    blockPrefetcher.calculatePriority cfg dirEntryPrefetchPriority kmd.tlfID
  let looped := dirEntryLoop startingPriority 0 dirEntries
  { wgAdd := dirEntries.length
    calls := looped.1
    wgDones := looped.2 }

/-- RetrievedResult: the observable effect of PrefetchAfterBlockRetrieved —
the fan-out handed to a completion goroutine (`wg != nil`), and whether the
returned done channel was closed synchronously in the function body before
returning (the `close(doneCh)` at source lines 316 and 326), as opposed to
being closed by the goroutine spawned at lines 329-332 after `wg.Wait()`. -/
structure RetrievedResult where
  fanOut : Option FanOut
  closedBeforeReturn : Bool
deriving DecidableEq

/-- PrefetchAfterBlockRetrieved (source lines 307-335): type-switch on the
block.  Indirect file and dir blocks and every direct dir block produce a
fan-out whose wait-group drives an asynchronous close of doneCh; direct
(leaf) file blocks and unknown variants close doneCh immediately. -/
def blockPrefetcher.PrefetchAfterBlockRetrieved (cfg : prefetcherConfig)
    (b : Block) (_ptr : BlockPointer) (kmd : KeyMetadata) : RetrievedResult :=
  match b with
  | .file fb =>
    if fb.isInd then
      { fanOut := some (blockPrefetcher.prefetchIndirectFileBlock cfg fb kmd)
        closedBeforeReturn := false }
    else
      { fanOut := none, closedBeforeReturn := true }
  | .dir db =>
    if db.isInd then
      { fanOut := some (blockPrefetcher.prefetchIndirectDirBlock cfg db kmd)
        closedBeforeReturn := false }
    else
      { fanOut := some (blockPrefetcher.prefetchDirectDirBlock cfg db kmd)
        closedBeforeReturn := false }
  | .common => { fanOut := none, closedBeforeReturn := true }

/-- EngineState: the run loop of the engine (source lines 160-195) as a
state machine.  `running` — the run-loop goroutine is inside its for/select
loop; `pending` — the value of the engine's internal wait-group, i.e. the
number of tracking goroutines spawned at line 174 that have not yet
returned; `shutdownClosed` / `doneClosed` — the two broadcast channels. -/
structure EngineState where
  running : Bool
  pending : Nat
  shutdownClosed : Bool
  doneClosed : Bool
deriving DecidableEq

/-- Initial engine state: run loop started (line 155), no pending tracking
tasks, both channels open. -/
def initEngineState : EngineState :=
  { running := true, pending := 0, shutdownClosed := false
    doneClosed := false }

/-- One atomic step of the engine and its tracking goroutines.

* `accept`: the run loop receives a request from progressCh, calls the
  retriever, does `wg.Add(1)` and spawns a tracking goroutine (lines
  168-190).  Possible whenever the loop is still running — including after
  shutdownCh has closed, since a Go select with several ready cases chooses
  arbitrarily.
* `finishTask`: one tracking goroutine returns, running the deferred
  `wg.Done()`.  By the body at lines 177-189 this happens only after the
  retriever's error channel has delivered — on the shutdown branch the task
  first cancels the context and still drains errCh (lines 183-188) — so a
  decrement of `pending` means the underlying retrieval has terminated.
* `closeShutdown`: Shutdown() closes shutdownCh (lines 338-345).
* `runExit`: the run loop takes the shutdown case and returns (lines
  191-192), requiring shutdownCh closed.
* `closeDone`: the deferred block of `run` (lines 162-165) — `wg.Wait()`
  has returned, so `pending = 0`, and the loop has exited; doneCh closes. -/
inductive EngineStep : EngineState → EngineState → Prop where
  | accept (s : EngineState) (h : s.running = true) :
      EngineStep s { s with pending := s.pending + 1 }
  | finishTask (s : EngineState) (h : 0 < s.pending) :
      EngineStep s { s with pending := s.pending - 1 }
  | closeShutdown (s : EngineState) :
      EngineStep s { s with shutdownClosed := true }
  | runExit (s : EngineState) (h1 : s.shutdownClosed = true)
      (h2 : s.running = true) :
      EngineStep s { s with running := false }
  | closeDone (s : EngineState) (h1 : s.running = false)
      (h2 : s.pending = 0) (h3 : s.shutdownClosed = true)
      (h4 : s.doneClosed = false) :
      EngineStep s { s with doneClosed := true }

/-- Reachability of an engine state from the freshly constructed engine. -/
def EngineReachable (s : EngineState) : Prop :=
  Relation.ReflTransGen EngineStep initEngineState s

/-- Quiescence invariant: a closed doneCh means shutdown was requested, the
run loop has exited, and no tracking task (hence no accepted retrieval) is
still in flight. -/
def engineInv (s : EngineState) : Prop :=
  s.doneClosed = true →
    s.shutdownClosed = true ∧ s.pending = 0 ∧ s.running = false

/-- Sample configuration: nothing cached, every data version supported, no
folder synced. -/
def sampleConfig : prefetcherConfig :=
  { cacheHasBlock := fun _ => false
    dataVersionSupported := fun _ => true
    isSyncedTlf := fun _ => false }

/-- Sample configuration caching pointer ⟨1, 1⟩. -/
def cachingConfig : prefetcherConfig :=
  { cacheHasBlock := fun q => q = ⟨1, 1⟩
    dataVersionSupported := fun _ => true
    isSyncedTlf := fun _ => false }

/-- Sample configuration rejecting the data version of pointer ⟨2, 0⟩. -/
def badVersionConfig : prefetcherConfig :=
  { cacheHasBlock := fun _ => false
    dataVersionSupported := fun q => q ≠ ⟨2, 0⟩
    isSyncedTlf := fun _ => false }

/-- Sample key metadata. -/
def sampleKmd : KeyMetadata := ⟨⟨7⟩⟩

/-!
Theorems.  Each claim of the specification is settled below; helper lemmas
come first.
-/

/-- C1: the admission function `request` performs no `wg.Done()` on any
path.  In particular, on the three paths that return without enqueueing —
cache hit, data-version rejection, shutdown already signalled — the
parent's pre-incremented fan-out counter is never decremented, so it can
never reach zero once one of these paths is taken for a child.  The second
and third conjuncts evaluate the cache-hit failing input: the call returns
success without enqueueing, and by the first conjunct without any
decrement. -/
theorem request_never_decrements_parent_counter :
    (∀ (cfg : prefetcherConfig) (sc recv : Bool) (pr : Int)
        (kmd : KeyMetadata) (ptr : BlockPointer) (blk : Block) (nm : String),
      (blockPrefetcher.request cfg sc recv pr kmd ptr blk nm).wgDones = 0) ∧
    (blockPrefetcher.request cachingConfig false false (-200) sampleKmd
        ⟨1, 1⟩ Block.common "").result = RequestResult.ok ∧
    (blockPrefetcher.request cachingConfig false false (-200) sampleKmd
        ⟨1, 1⟩ Block.common "").enqueued = none := by
  refine ⟨fun cfg sc recv pr kmd ptr blk nm => ?_, by decide, by decide⟩
  cases h1 : cfg.cacheHasBlock ptr <;>
    cases h2 : cfg.dataVersionSupported ptr <;>
      cases recv <;> cases sc <;>
        simp [blockPrefetcher.request, h1, h2]

/-- C3: for a pointer currently present in the block cache, `request`
returns success immediately: nothing is sent to the run loop, hence no
prefetch request for that pointer is ever passed to the retriever (the run
loop at source lines 168-172 is the only caller of `retriever.Request`, and
it only sees requests received from progressCh). -/
theorem request_cache_hit_no_dispatch (cfg : prefetcherConfig)
    (sc recv : Bool) (pr : Int) (kmd : KeyMetadata) (ptr : BlockPointer)
    (blk : Block) (nm : String) (h : cfg.cacheHasBlock ptr = true) :
    blockPrefetcher.request cfg sc recv pr kmd ptr blk nm
      = { result := RequestResult.ok, enqueued := none, wgDones := 0 } := by
  simp [blockPrefetcher.request, h]

/-- Witness for C3 at the concrete cached pointer of `cachingConfig`. -/
theorem request_cache_hit_no_dispatch_witness :
    cachingConfig.cacheHasBlock ⟨1, 1⟩ = true ∧
    blockPrefetcher.request cachingConfig true true 7 sampleKmd ⟨1, 1⟩
        Block.common "x"
      = { result := RequestResult.ok, enqueued := none, wgDones := 0 } :=
  ⟨by decide,
    request_cache_hit_no_dispatch cachingConfig true true 7 sampleKmd
      ⟨1, 1⟩ Block.common "x" (by decide)⟩

/-- C10: admission checks cache membership before data-version validity: a
cached pointer is admitted as a success even when its data version is
unsupported, and the data-version error can only be returned for a pointer
that is not in the cache. -/
theorem cache_check_precedes_version_check (cfg : prefetcherConfig)
    (sc recv : Bool) (pr : Int) (kmd : KeyMetadata) (ptr : BlockPointer)
    (blk : Block) (nm : String) :
    (cfg.cacheHasBlock ptr = true → cfg.dataVersionSupported ptr = false →
      (blockPrefetcher.request cfg sc recv pr kmd ptr blk nm).result
        = RequestResult.ok) ∧
    (∀ q : BlockPointer,
      (blockPrefetcher.request cfg sc recv pr kmd ptr blk nm).result
          = RequestResult.dataVersionErr q →
        cfg.cacheHasBlock ptr = false) := by
  constructor
  · intro h1 _
    simp [blockPrefetcher.request, h1]
  · intro q hq
    cases h1 : cfg.cacheHasBlock ptr
    · rfl
    · simp [blockPrefetcher.request, h1] at hq

/-- Witness for C10: a pointer that is cached and has an unsupported data
version is still admitted as a success. -/
theorem cache_check_precedes_version_check_witness :
    ({ cacheHasBlock := fun q => q = ⟨1, 1⟩
       dataVersionSupported := fun _ => false
       isSyncedTlf := fun _ => false : prefetcherConfig }).cacheHasBlock
        ⟨1, 1⟩ = true ∧
    (blockPrefetcher.request
        { cacheHasBlock := fun q => q = ⟨1, 1⟩
          dataVersionSupported := fun _ => false
          isSyncedTlf := fun _ => false } false false 0 sampleKmd ⟨1, 1⟩
        Block.common "").result = RequestResult.ok :=
  ⟨by decide,
    (cache_check_precedes_version_check
        { cacheHasBlock := fun q => q = ⟨1, 1⟩
          dataVersionSupported := fun _ => false
          isSyncedTlf := fun _ => false } false false 0 sampleKmd ⟨1, 1⟩
        Block.common "").1 (by decide) (by decide)⟩

/-- C6: for a synced folder the computed priority is
defaultOnDemandRequestPriority - 1 regardless of the base priority; for an
unsynced folder it is the base priority unchanged. -/
theorem calculatePriority_synced_override (cfg : prefetcherConfig)
    (base : Int) (tlf : TlfID) :
    (cfg.isSyncedTlf tlf = true →
      blockPrefetcher.calculatePriority cfg base tlf
        = defaultOnDemandRequestPriority - 1) ∧
    (cfg.isSyncedTlf tlf = false →
      blockPrefetcher.calculatePriority cfg base tlf = base) := by
  cases h : cfg.isSyncedTlf tlf <;>
    simp [blockPrefetcher.calculatePriority, h]

/-- Witness for C6 at a concrete synced and a concrete unsynced folder. -/
theorem calculatePriority_synced_override_witness :
    blockPrefetcher.calculatePriority
        { cacheHasBlock := fun _ => false
          dataVersionSupported := fun _ => true
          isSyncedTlf := fun _ => true } (-1024) ⟨7⟩
      = defaultOnDemandRequestPriority - 1 ∧
    blockPrefetcher.calculatePriority sampleConfig (-1024) ⟨7⟩ = -1024 :=
  ⟨(calculatePriority_synced_override
      { cacheHasBlock := fun _ => false
        dataVersionSupported := fun _ => true
        isSyncedTlf := fun _ => true } (-1024) ⟨7⟩).1 (by decide),
    (calculatePriority_synced_override sampleConfig (-1024) ⟨7⟩).2
      (by decide)⟩

/-- C7: Shutdown is idempotent.  After any call the shutdown signal is
closed; every call returns the done channel allocated at construction; a
second call leaves the state unchanged and returns the same channel; the
first call on an open engine only closes the shutdown signal; a call on an
already-shut-down engine changes nothing. -/
theorem shutdown_idempotent_same_done (p : blockPrefetcher) :
    ((p.Shutdown).1.shutdownClosed = true) ∧
    ((p.Shutdown).2 = p.doneChId) ∧
    ((p.Shutdown).1.Shutdown = ((p.Shutdown).1, p.doneChId)) ∧
    (p.shutdownClosed = false →
      (p.Shutdown).1 = { p with shutdownClosed := true }) ∧
    (p.shutdownClosed = true → (p.Shutdown).1 = p) := by
  cases h : p.shutdownClosed <;>
    simp [blockPrefetcher.Shutdown, h]

/-- Witness for C7 on a concrete freshly constructed engine. -/
theorem shutdown_idempotent_same_done_witness :
    ((newBlockPrefetcher true).Shutdown).1
        = { shutdownClosed := true, doneClosed := false, runStarted := true
            doneChId := 0 } ∧
    ((newBlockPrefetcher true).Shutdown).2 = 0 ∧
    (((newBlockPrefetcher true).Shutdown).1.Shutdown
        = (((newBlockPrefetcher true).Shutdown).1, 0)) :=
  ⟨(shutdown_idempotent_same_done (newBlockPrefetcher true)).2.2.2.1
      (by decide),
    (shutdown_idempotent_same_done (newBlockPrefetcher true)).2.1,
    (shutdown_idempotent_same_done (newBlockPrefetcher true)).2.2.1⟩

/-- The loop of prefetchIndirectFileBlock issues one request per pointer. -/
theorem indirectFileCalls_length (l : List IndirectFilePtr) :
    ∀ start : Int, (indirectFileCalls start l).length = l.length := by
  induction l with
  | nil => intro start; rfl
  | cons q qs ih => intro start; simp [indirectFileCalls, ih]

/-- The j-th request of an indirect-file fan-out targets the j-th pointer at
priority start - j, with an empty file block and empty entry name. -/
theorem indirectFileCalls_getElem (l : List IndirectFilePtr) :
    ∀ (start : Int) (j : Nat) (c : RequestCall),
      (indirectFileCalls start l)[j]? = some c →
      ∃ q, l[j]? = some q ∧
        c = ⟨start - (j : Int), q.ptr, FileBlock.NewEmpty, ""⟩ := by
  induction l with
  | nil => intro start j c h; simp [indirectFileCalls] at h
  | cons q qs ih =>
    intro start j c h
    cases j with
    | zero =>
      refine ⟨q, by simp, ?_⟩
      simp only [indirectFileCalls, List.getElem?_cons_zero,
        Option.some.injEq] at h
      simp [← h]
    | succ n =>
      simp only [indirectFileCalls, List.getElem?_cons_succ] at h
      obtain ⟨q', hq', hc⟩ := ih (start - 1) n c h
      refine ⟨q', by simpa using hq', ?_⟩
      rw [hc]
      congr 1
      push_cast
      ring

/-- The loop of prefetchIndirectDirBlock issues one request per pointer. -/
theorem indirectDirCalls_length (l : List IndirectDirPtr) :
    ∀ start : Int, (indirectDirCalls start l).length = l.length := by
  induction l with
  | nil => intro start; rfl
  | cons q qs ih => intro start; simp [indirectDirCalls, ih]

/-- The j-th request of an indirect-dir fan-out targets the j-th pointer at
priority start - j, with an empty dir block and empty entry name. -/
theorem indirectDirCalls_getElem (l : List IndirectDirPtr) :
    ∀ (start : Int) (j : Nat) (c : RequestCall),
      (indirectDirCalls start l)[j]? = some c →
      ∃ q, l[j]? = some q ∧
        c = ⟨start - (j : Int), q.ptr, DirBlock.NewEmpty, ""⟩ := by
  induction l with
  | nil => intro start j c h; simp [indirectDirCalls] at h
  | cons q qs ih =>
    intro start j c h
    cases j with
    | zero =>
      refine ⟨q, by simp, ?_⟩
      simp only [indirectDirCalls, List.getElem?_cons_zero,
        Option.some.injEq] at h
      simp [← h]
    | succ n =>
      simp only [indirectDirCalls, List.getElem?_cons_succ] at h
      obtain ⟨q', hq', hc⟩ := ih (start - 1) n c h
      refine ⟨q', by simpa using hq', ?_⟩
      rw [hc]
      congr 1
      push_cast
      ring

/-- C5: within an indirect fan-out the i-th child request (0-indexed, in
the order of the parent's pointer list) is submitted with priority
base - i, where base is the calculated starting priority; the fan-out has
one request per pointer; and the indirect dir fan-out derives its base from
the same constant fileIndirectBlockPrefetchPriority = -100 as the indirect
file fan-out. -/
theorem indirect_fanout_decreasing_priorities (cfg : prefetcherConfig)
    (fb : FileBlock) (db : DirBlock) (kmd : KeyMetadata) :
    fileIndirectBlockPrefetchPriority = -100 ∧
    (blockPrefetcher.prefetchIndirectFileBlock cfg fb kmd).calls.length
      = fb.iPtrs.length ∧
    (blockPrefetcher.prefetchIndirectDirBlock cfg db kmd).calls.length
      = db.iPtrs.length ∧
    (∀ (j : Nat) (c : RequestCall),
      (blockPrefetcher.prefetchIndirectFileBlock cfg fb kmd).calls[j]?
          = some c →
        c.priority
          = blockPrefetcher.calculatePriority cfg
              fileIndirectBlockPrefetchPriority kmd.tlfID - (j : Int)) ∧
    (∀ (j : Nat) (c : RequestCall),
      (blockPrefetcher.prefetchIndirectDirBlock cfg db kmd).calls[j]?
          = some c →
        c.priority
          = blockPrefetcher.calculatePriority cfg
              fileIndirectBlockPrefetchPriority kmd.tlfID - (j : Int)) := by
  refine ⟨rfl, indirectFileCalls_length fb.iPtrs _,
    indirectDirCalls_length db.iPtrs _, ?_, ?_⟩
  · intro j c h
    obtain ⟨q, _, hc⟩ := indirectFileCalls_getElem fb.iPtrs _ j c h
    rw [hc]
  · intro j c h
    obtain ⟨q, _, hc⟩ := indirectDirCalls_getElem db.iPtrs _ j c h
    rw [hc]

/-- Witness for C5: a two-pointer indirect file block and a one-pointer
indirect dir block, with the priorities evaluated. -/
theorem indirect_fanout_decreasing_priorities_witness :
    (blockPrefetcher.prefetchIndirectFileBlock sampleConfig
        ⟨true, [⟨⟨10, 1⟩, 0⟩, ⟨⟨11, 1⟩, 150⟩]⟩ sampleKmd).calls.length = 2 ∧
    ((blockPrefetcher.prefetchIndirectFileBlock sampleConfig
          ⟨true, [⟨⟨10, 1⟩, 0⟩, ⟨⟨11, 1⟩, 150⟩]⟩ sampleKmd).calls[1]?.map
        (fun c => c.priority)) = some (-101) ∧
    ((blockPrefetcher.prefetchIndirectDirBlock sampleConfig
          ⟨true, [⟨⟨12, 1⟩, "a"⟩], []⟩ sampleKmd).calls[0]?.map
        (fun c => c.priority)) = some (-100) := by
  have h := indirect_fanout_decreasing_priorities sampleConfig
    ⟨true, [⟨⟨10, 1⟩, 0⟩, ⟨⟨11, 1⟩, 150⟩]⟩ ⟨true, [⟨⟨12, 1⟩, "a"⟩], []⟩
    sampleKmd
  refine ⟨h.2.1, ?_, ?_⟩
  · have := h.2.2.2.1 1
      ⟨-101, ⟨11, 1⟩, FileBlock.NewEmpty, ""⟩ (by decide)
    decide
  · have := h.2.2.2.2 0
      ⟨-100, ⟨12, 1⟩, DirBlock.NewEmpty, ""⟩ (by decide)
    decide

/-- Soundness of the direct-dir loop: every issued request comes from a
non-Sym entry at some index j of the walked list, at priority
start - (i + j), targeting that entry's pointer with the matching empty
block and the entry's name. -/
theorem dirEntryLoop_sound (l : List DirEntry) :
    ∀ (start : Int) (i : Nat) (c : RequestCall),
      c ∈ (dirEntryLoop start i l).1 →
      ∃ (j : Nat) (entry : DirEntry), l[j]? = some entry ∧
        entry.type ≠ EntryType.Sym ∧
        c = ⟨start - ((i + j : Nat) : Int), entry.ptr,
              emptyTargetFor entry.type, entry.entryName⟩ := by
  induction l with
  | nil => intro start i c h; simp [dirEntryLoop] at h
  | cons entry rest ih =>
    intro start i c h
    have step :
        ∀ hmem : c ∈ (dirEntryLoop start (i + 1) rest).1,
          ∃ (j : Nat) (e : DirEntry), (entry :: rest)[j]? = some e ∧
            e.type ≠ EntryType.Sym ∧
            c = ⟨start - ((i + j : Nat) : Int), e.ptr,
                  emptyTargetFor e.type, e.entryName⟩ := by
      intro hmem
      obtain ⟨j, e, hj, hs, hc⟩ := ih start (i + 1) c hmem
      refine ⟨j + 1, e, by simpa using hj, hs, ?_⟩
      rw [hc]
      congr 2
      omega
    cases hty : entry.type with
    | Sym =>
      simp only [dirEntryLoop, hty] at h
      exact step h
    | Dir =>
      simp only [dirEntryLoop, hty] at h
      rcases List.mem_cons.mp h with hc | hmem
      · exact ⟨0, entry, by simp, by simp [hty], by simp [hc, hty]⟩
      · exact step hmem
    | File =>
      simp only [dirEntryLoop, hty] at h
      rcases List.mem_cons.mp h with hc | hmem
      · exact ⟨0, entry, by simp, by simp [hty], by simp [hc, hty]⟩
      · exact step hmem
    | Exec =>
      simp only [dirEntryLoop, hty] at h
      rcases List.mem_cons.mp h with hc | hmem
      · exact ⟨0, entry, by simp, by simp [hty], by simp [hc, hty]⟩
      · exact step hmem

/-- Completeness of the direct-dir loop: every non-Sym entry at index j of
the walked list gives rise to the corresponding request. -/
theorem dirEntryLoop_complete (l : List DirEntry) :
    ∀ (start : Int) (i j : Nat) (entry : DirEntry),
      l[j]? = some entry → entry.type ≠ EntryType.Sym →
      (⟨start - ((i + j : Nat) : Int), entry.ptr,
          emptyTargetFor entry.type, entry.entryName⟩ : RequestCall)
        ∈ (dirEntryLoop start i l).1 := by
  induction l with
  | nil => intro start i j entry hj; simp at hj
  | cons e rest ih =>
    intro start i j entry hj hs
    cases j with
    | zero =>
      simp only [List.getElem?_cons_zero, Option.some.injEq] at hj
      subst hj
      cases hty : e.type with
      | Sym => exact absurd hty hs
      | Dir => simp [dirEntryLoop, hty]
      | File => simp [dirEntryLoop, hty]
      | Exec => simp [dirEntryLoop, hty]
    | succ n =>
      simp only [List.getElem?_cons_succ] at hj
      have hmem := ih start (i + 1) n entry hj hs
      have harith : start - (((i + 1) + n : Nat) : Int)
          = start - ((i + (n + 1) : Nat) : Int) := by
        congr 1
        omega
      cases hty : e.type with
      | Sym =>
        simp only [dirEntryLoop, hty]
        rw [← harith]
        exact hmem
      | Dir =>
        simp only [dirEntryLoop, hty]
        right
        rw [← harith]
        exact hmem
      | File =>
        simp only [dirEntryLoop, hty]
        right
        rw [← harith]
        exact hmem
      | Exec =>
        simp only [dirEntryLoop, hty]
        right
        rw [← harith]
        exact hmem

/-- C4: prefetchDirectDirBlock first sorts the children ascending by entry
size (the sorted list is sorted under sizeLE and is a permutation of the
children list), and only then assigns priorities in that sorted order: every
issued request targets the entry at some index j of the sorted list with
priority base - j, where base is the calculated dir-entry starting
priority, and carries the empty block matching the entry type
(emptyTargetFor: Dir gets an empty DirBlock, File and Exec get an empty
FileBlock); conversely every prefetchable (non-Sym) entry of the sorted
list is enqueued that way. -/
theorem prefetchDirectDirBlock_sorted_fanout (cfg : prefetcherConfig)
    (b : DirBlock) (kmd : KeyMetadata) :
    List.Sorted sizeLE
      (dirEntriesBySizeAscSort (dirEntryMapToDirEntries b.children)) ∧
    (dirEntriesBySizeAscSort (dirEntryMapToDirEntries b.children)).Perm
      (dirEntryMapToDirEntries b.children) ∧
    (∀ c ∈ (blockPrefetcher.prefetchDirectDirBlock cfg b kmd).calls,
      ∃ (j : Nat) (entry : DirEntry),
        (dirEntriesBySizeAscSort (dirEntryMapToDirEntries b.children))[j]?
            = some entry ∧
        entry.type ≠ EntryType.Sym ∧
        c = ⟨blockPrefetcher.calculatePriority cfg dirEntryPrefetchPriority
                kmd.tlfID - (j : Int), entry.ptr,
              emptyTargetFor entry.type, entry.entryName⟩) ∧
    (∀ (j : Nat) (entry : DirEntry),
      (dirEntriesBySizeAscSort (dirEntryMapToDirEntries b.children))[j]?
          = some entry →
      entry.type ≠ EntryType.Sym →
      (⟨blockPrefetcher.calculatePriority cfg dirEntryPrefetchPriority
            kmd.tlfID - (j : Int), entry.ptr, emptyTargetFor entry.type,
          entry.entryName⟩ : RequestCall)
        ∈ (blockPrefetcher.prefetchDirectDirBlock cfg b kmd).calls) := by
  refine ⟨List.sorted_insertionSort sizeLE _,
    List.perm_insertionSort sizeLE _, ?_, ?_⟩
  · intro c hc
    obtain ⟨j, entry, hj, hs, hcall⟩ :=
      dirEntryLoop_sound
        (dirEntriesBySizeAscSort (dirEntryMapToDirEntries b.children)) _ 0 c
        hc
    refine ⟨j, entry, hj, hs, ?_⟩
    rw [hcall]
    congr 2
    omega
  · intro j entry hj hs
    have hmem :=
      dirEntryLoop_complete
        (dirEntriesBySizeAscSort (dirEntryMapToDirEntries b.children))
        (blockPrefetcher.calculatePriority cfg dirEntryPrefetchPriority
          kmd.tlfID) 0 j entry hj hs
    have harith : blockPrefetcher.calculatePriority cfg
          dirEntryPrefetchPriority kmd.tlfID - ((0 + j : Nat) : Int)
        = blockPrefetcher.calculatePriority cfg dirEntryPrefetchPriority
            kmd.tlfID - (j : Int) := by
      congr 1
      omega
    rw [← harith]
    exact hmem

/-- Witness for C4 on the three-entry directory of the repository's test
(a: File size 100, b: Dir size 60, c: Exec size 20): the Dir entry lands at
index 1 of the size-sorted order and is enqueued with an empty DirBlock at
base - 1. -/
theorem prefetchDirectDirBlock_sorted_fanout_witness :
    (⟨blockPrefetcher.calculatePriority sampleConfig dirEntryPrefetchPriority
        sampleKmd.tlfID - ((1 : Nat) : Int), ⟨21, 1⟩,
        emptyTargetFor EntryType.Dir, "b"⟩ : RequestCall)
      ∈ (blockPrefetcher.prefetchDirectDirBlock sampleConfig
          ⟨false, [],
            [("a", ⟨⟨20, 1⟩, EntryType.File, 100, ""⟩),
             ("b", ⟨⟨21, 1⟩, EntryType.Dir, 60, ""⟩),
             ("c", ⟨⟨22, 1⟩, EntryType.Exec, 20, ""⟩)]⟩ sampleKmd).calls :=
  (prefetchDirectDirBlock_sorted_fanout sampleConfig
      ⟨false, [],
        [("a", ⟨⟨20, 1⟩, EntryType.File, 100, ""⟩),
         ("b", ⟨⟨21, 1⟩, EntryType.Dir, 60, ""⟩),
         ("c", ⟨⟨22, 1⟩, EntryType.Exec, 20, ""⟩)]⟩ sampleKmd).2.2.2 1
    ⟨⟨21, 1⟩, EntryType.Dir, 60, "b"⟩ (by decide) (by decide)

/-- One engine step preserves the quiescence invariant. -/
theorem engineInv_step {s t : EngineState} (hs : engineInv s)
    (h : EngineStep s t) : engineInv t := by
  cases h with
  | accept hrun =>
    intro hd
    have := (hs hd).2.2
    rw [hrun] at this
    cases this
  | finishTask hp =>
    intro hd
    have := (hs hd).2.1
    omega
  | closeShutdown =>
    intro hd
    exact ⟨rfl, (hs hd).2.1, (hs hd).2.2⟩
  | runExit h1 h2 =>
    intro hd
    have := (hs hd).2.2
    rw [h2] at this
    cases this
  | closeDone h1 h2 h3 h4 =>
    intro _
    exact ⟨h3, h2, h1⟩

/-- Every reachable engine state satisfies the quiescence invariant. -/
theorem engineInv_reachable {s : EngineState} (h : EngineReachable s) :
    engineInv s := by
  induction h with
  | refl =>
    intro hd
    simp [initEngineState] at hd
  | tail _ hstep ih => exact engineInv_step ih hstep

/-- A closed doneCh stays closed across engine steps. -/
theorem engineStep_done_mono {s t : EngineState} (h : EngineStep s t)
    (hd : s.doneClosed = true) : t.doneClosed = true := by
  cases h <;> simp_all

/-- Once doneCh is closed in a state satisfying the invariant, every later
state still has doneCh closed and zero pending retrievals. -/
theorem done_stable {s t : EngineState} (hinv : engineInv s)
    (hd : s.doneClosed = true)
    (h : Relation.ReflTransGen EngineStep s t) :
    t.doneClosed = true ∧ t.pending = 0 := by
  have strong : engineInv t ∧ t.doneClosed = true := by
    induction h with
    | refl => exact ⟨hinv, hd⟩
    | tail _ hstep ih =>
      exact ⟨engineInv_step ih.1 hstep, engineStep_done_mono hstep ih.2⟩
  exact ⟨strong.2, (strong.1 strong.2).2.1⟩

/-- After the run loop has exited with shutdown signalled, draining the n
pending tracking tasks and closing doneCh is always possible. -/
theorem engine_drain :
    ∀ (n : Nat) (s : EngineState), s.running = false →
      s.shutdownClosed = true → s.pending = n →
      ∃ t, Relation.ReflTransGen EngineStep s t ∧ t.doneClosed = true := by
  intro n
  induction n with
  | zero =>
    intro s h1 h2 h3
    cases hd : s.doneClosed with
    | true => exact ⟨s, Relation.ReflTransGen.refl, hd⟩
    | false =>
      exact ⟨{ s with doneClosed := true },
        Relation.ReflTransGen.single (EngineStep.closeDone s h1 h3 h2 hd),
        rfl⟩
  | succ n ih =>
    intro s h1 h2 h3
    obtain ⟨t, ht, htd⟩ :=
      ih { s with pending := s.pending - 1 } h1 h2 (by simp [h3])
    exact ⟨t,
      Relation.ReflTransGen.head (EngineStep.finishTask s (by omega)) ht,
      htd⟩

/-- From any state with shutdown signalled, the engine can reach a state
with doneCh closed. -/
theorem engine_shutdown_drains (s : EngineState)
    (h2 : s.shutdownClosed = true) :
    ∃ t, Relation.ReflTransGen EngineStep s t ∧ t.doneClosed = true := by
  cases hr : s.running with
  | false => exact engine_drain s.pending s hr h2 rfl
  | true =>
    obtain ⟨t, ht, htd⟩ :=
      engine_drain s.pending { s with running := false } rfl h2 rfl
    exact ⟨t, Relation.ReflTransGen.head (EngineStep.runExit s h2 hr) ht,
      htd⟩

/-- C2: in every reachable engine state, doneCh is closed only if shutdown
has been requested and every accepted request has terminated (pending = 0);
once doneCh is closed no retrieval is ever in flight again in any later
state; and whenever shutdown has been requested the engine can go on to
close doneCh.  The decrement of pending happens only in the finishTask
step, which by construction models the tracking goroutine returning after
the retriever's completion channel has delivered — on the shutdown branch
after cancelling and still draining that channel. -/
theorem done_signal_quiescence (s : EngineState) (h : EngineReachable s) :
    (s.doneClosed = true → s.shutdownClosed = true ∧ s.pending = 0) ∧
    (s.doneClosed = true → ∀ t, Relation.ReflTransGen EngineStep s t →
      t.doneClosed = true ∧ t.pending = 0) ∧
    (s.shutdownClosed = true →
      ∃ t, Relation.ReflTransGen EngineStep s t ∧ t.doneClosed = true) := by
  have hinv := engineInv_reachable h
  refine ⟨fun hd => ⟨(hinv hd).1, (hinv hd).2.1⟩, ?_, ?_⟩
  · intro hd t ht
    exact done_stable hinv hd ht
  · intro hsd
    exact engine_shutdown_drains s hsd

/-- Witness for C2: the state after accepting one request and signalling
shutdown is reachable, and from it the engine can close doneCh. -/
theorem done_signal_quiescence_witness :
    EngineReachable
      { running := true, pending := 1, shutdownClosed := true
        doneClosed := false } ∧
    ∃ t, Relation.ReflTransGen EngineStep
        { running := true, pending := 1, shutdownClosed := true
          doneClosed := false } t ∧ t.doneClosed = true := by
  have hreach : EngineReachable
      { running := true, pending := 1, shutdownClosed := true
        doneClosed := false } := by
    refine Relation.ReflTransGen.tail (Relation.ReflTransGen.tail
      Relation.ReflTransGen.refl
      (EngineStep.accept initEngineState rfl)) ?_
    exact EngineStep.closeShutdown
      { running := true, pending := 1, shutdownClosed := false
        doneClosed := false }
  exact ⟨hreach,
    (done_signal_quiescence _ hreach).2.2 rfl⟩

/-- C8 counterexample: for a direct directory block with an empty children
map — a zero-children block — PrefetchAfterBlockRetrieved does not close
the done channel before returning (the close is delegated to the completion
goroutine spawned at source lines 329-332), refuting the claim that the
signal is already closed before the call returns in that case.  The second
conjunct confirms this input really has zero child requests. -/
theorem empty_dir_not_closed_before_return :
    (blockPrefetcher.PrefetchAfterBlockRetrieved sampleConfig
        (Block.dir ⟨false, [], []⟩) ⟨9, 1⟩ sampleKmd).closedBeforeReturn
      = false ∧
    (blockPrefetcher.PrefetchAfterBlockRetrieved sampleConfig
        (Block.dir ⟨false, [], []⟩) ⟨9, 1⟩ sampleKmd).fanOut
      = some { wgAdd := 0, calls := [], wgDones := 0 } :=
  ⟨rfl, rfl⟩

/-- C8 (amended): direct (leaf) file blocks and unknown variants produce no
fan-out and their done signal is closed before the call returns; a direct
directory block with an empty children map also issues no prefetch requests,
but its done signal is not closed before return — it is handed to the
completion goroutine together with a zero-valued fan-out counter, which
closes it asynchronously. -/
theorem zero_children_retrieval_effects (cfg : prefetcherConfig)
    (ptr : BlockPointer) (kmd : KeyMetadata) (fl : List IndirectFilePtr)
    (dl : List IndirectDirPtr) :
    blockPrefetcher.PrefetchAfterBlockRetrieved cfg (Block.file ⟨false, fl⟩)
        ptr kmd = { fanOut := none, closedBeforeReturn := true } ∧
    blockPrefetcher.PrefetchAfterBlockRetrieved cfg Block.common ptr kmd
      = { fanOut := none, closedBeforeReturn := true } ∧
    blockPrefetcher.PrefetchAfterBlockRetrieved cfg
        (Block.dir ⟨false, dl, []⟩) ptr kmd
      = { fanOut := some { wgAdd := 0, calls := [], wgDones := 0 }
          closedBeforeReturn := false } :=
  ⟨rfl, rfl, rfl⟩

/-- C9 counterexample: on an engine built with a nil retriever, admission of
a non-cached pointer whose data version is unsupported fails with the
data-version error, not the shutdown error, refuting the claim that every
admission of a non-cached pointer fails with the shutdown error. -/
theorem nil_retriever_rejection_error_counterexample :
    badVersionConfig.cacheHasBlock ⟨2, 0⟩ = false ∧
    (blockPrefetcher.requestStep badVersionConfig (newBlockPrefetcher false)
        false 0 sampleKmd ⟨2, 0⟩ Block.common "").result
      = RequestResult.dataVersionErr ⟨2, 0⟩ ∧
    (blockPrefetcher.requestStep badVersionConfig (newBlockPrefetcher false)
        false 0 sampleKmd ⟨2, 0⟩ Block.common "").result
      ≠ RequestResult.shutdownErr ⟨2, 0⟩ := by
  refine ⟨rfl, by decide, by decide⟩

/-- C9 (amended): a prefetcher constructed with a nil retriever is already
shut down at construction — its done signal is closed immediately, the run
loop is never started, and every subsequent admission (request or
PrefetchBlock) of a non-cached pointer that passes the data-version check
fails with the shutdown error without dispatching anything (a non-cached
pointer failing the data-version check instead fails with the data-version
error). -/
theorem nil_retriever_prefetcher_rejects (cfg : prefetcherConfig)
    (recv : Bool) (pr : Int) (kmd : KeyMetadata) (ptr : BlockPointer)
    (blk : Block) (nm : String) (h1 : cfg.cacheHasBlock ptr = false)
    (h2 : cfg.dataVersionSupported ptr = true) :
    (newBlockPrefetcher false).doneClosed = true ∧
    (newBlockPrefetcher false).shutdownClosed = true ∧
    (newBlockPrefetcher false).runStarted = false ∧
    blockPrefetcher.requestStep cfg (newBlockPrefetcher false) recv pr kmd
        ptr blk nm
      = { result := RequestResult.shutdownErr ptr, enqueued := none
          wgDones := 0 } ∧
    blockPrefetcher.PrefetchBlock cfg (newBlockPrefetcher false) recv blk
        ptr kmd pr
      = { result := RequestResult.shutdownErr ptr, enqueued := none
          wgDones := 0 } := by
  refine ⟨rfl, rfl, rfl, ?_, ?_⟩ <;>
    simp [blockPrefetcher.PrefetchBlock, blockPrefetcher.requestStep,
      blockPrefetcher.request, newBlockPrefetcher, blockPrefetcher.Shutdown,
      h1, h2]

/-- Witness for C9 at a concrete non-cached, version-supported pointer. -/
theorem nil_retriever_prefetcher_rejects_witness :
    sampleConfig.cacheHasBlock ⟨3, 1⟩ = false ∧
    sampleConfig.dataVersionSupported ⟨3, 1⟩ = true ∧
    blockPrefetcher.requestStep sampleConfig (newBlockPrefetcher false) true
        (-100) sampleKmd ⟨3, 1⟩ Block.common ""
      = { result := RequestResult.shutdownErr ⟨3, 1⟩, enqueued := none
          wgDones := 0 } :=
  ⟨rfl, rfl,
    (nil_retriever_prefetcher_rejects sampleConfig true (-100) sampleKmd
        ⟨3, 1⟩ Block.common "" rfl rfl).2.2.2.1⟩
